import Mathlib

/-!
Shallow embedding of the `mcp-server-aap` repository: the AAP HTTP client
wrapper (`aap_client.py`) and the MCP tool dispatcher (`server.py`).

Upstream JSON payloads are modelled by the `Json` inductive; Python dicts
are association lists in insertion order (Python 3.7+ dicts preserve
insertion order, and `json.dumps` serialises keys in that order).
Network effects are modelled by an oracle `Nat → AttemptOutcome` giving the
outcome of each HTTP attempt.
-/

namespace AAP

/-- JSON values as produced by Python's `json` module / httpx `response.json()`.
Objects are association lists of key/value pairs in insertion order. -/
inductive Json where
  | null
  | bool (b : Bool)
  | int (n : Int)
  | str (s : String)
  | arr (xs : List Json)
  | obj (kvs : List (String × Json))
deriving Repr

/-- Lowercase hex digit, as used by Python's `json.dumps` \uXXXX escapes. -/
def hexDigit (n : Nat) : Char :=
  if n < 10 then Char.ofNat (48 + n) else Char.ofNat (87 + n)

/-- A four-hex-digit \uXXXX escape. -/
def uEscape4 (n : Nat) : String :=
  "\\u" ++ String.mk [hexDigit (n / 4096 % 16), hexDigit (n / 256 % 16),
                      hexDigit (n / 16 % 16), hexDigit (n % 16)]

/-- \u escape of a code point, using a surrogate pair above U+FFFF,
matching Python's `json.dumps` with its default `ensure_ascii=True`. -/
def uEscape (n : Nat) : String :=
  if n < 65536 then uEscape4 n
  else
    uEscape4 (55296 + (n - 65536) / 1024) ++ uEscape4 (56320 + (n - 65536) % 1024)

/-- Escape one character the way Python's `json.dumps` does by default. -/
def jsonEscapeChar (c : Char) : String :=
  if c = '"' then "\\\""
  else if c = '\\' then "\\\\"
  else if c = '\n' then "\\n"
  else if c = '\r' then "\\r"
  else if c = '\t' then "\\t"
  else if c.toNat = 8 then "\\b"
  else if c.toNat = 12 then "\\f"
  else if c.toNat < 32 || 126 < c.toNat then uEscape c.toNat
  else String.singleton c

/-- A JSON string literal, Python `json.dumps` style (ASCII-only output). -/
def jsonQuote (s : String) : String :=
  "\"" ++ String.join (s.data.map jsonEscapeChar) ++ "\""

/-- Indentation for `json.dumps(..., indent=2)` at nesting depth `d`. -/
def pad (d : Nat) : String :=
  String.mk (List.replicate (2 * d) ' ')

/-- `json.dumps(v, indent=2)` at nesting depth `d`: with an `indent`
argument Python separates items with `",\n"`, keys from values with
`": "`, and renders empty containers with no inner newline. -/
def dumps : Json → Nat → String
  | .null, _ => "null"
  | .bool b, _ => if b then "true" else "false"
  | .int n, _ => toString n
  | .str s, _ => jsonQuote s
  | .arr [], _ => "[]"
  | .arr (x :: xs), d =>
      "[\n" ++
      String.intercalate ",\n"
        ((x :: xs).attach.map (fun y => pad (d + 1) ++ dumps y.1 (d + 1))) ++
      "\n" ++ pad d ++ "]"
  | .obj [], _ => "\x7b\x7d"
  | .obj (kv :: kvs), d =>
      "\x7b\n" ++
      String.intercalate ",\n"
        ((kv :: kvs).attach.map
          (fun y => pad (d + 1) ++ jsonQuote y.1.1 ++ ": " ++ dumps y.1.2 (d + 1))) ++
      "\n" ++ pad d ++ "\x7d"
termination_by v _ => sizeOf v
decreasing_by
  all_goals simp_wf
  · have h := List.sizeOf_lt_of_mem y.2
    simp only [Json.arr.sizeOf_spec, List.cons.sizeOf_spec] at *
    omega
  · obtain ⟨⟨a, b⟩, hm⟩ := y
    have h := List.sizeOf_lt_of_mem hm
    simp only [Json.obj.sizeOf_spec, List.cons.sizeOf_spec, Prod.mk.sizeOf_spec] at *
    omega

/-- `AAPConfig` (pydantic model, `aap_client.py`): connection configuration.
`max_retries` and `timeout` are Python ints, here ℕ (the code only ever
uses them as a `range` bound and a client timeout). -/
structure AAPConfig where
  url : String
  token : String
  project_id : String
  verify_ssl : Bool := true
  timeout : Nat := 30
  max_retries : Nat := 3
deriving Repr, DecidableEq

/-- The state an `AAPClient.__init__` call builds: the stored config plus
the `httpx.AsyncClient` construction arguments (headers, base URL,
TLS-verify flag, timeout). -/
structure AAPClientState where
  config : AAPConfig
  headers : List (String × String)
  base_url : String
  verify : Bool
  timeout : Nat
deriving Repr, DecidableEq

/-- `AAPClient.__init__` with an explicit config: store it, raise
`ValueError` when the URL or the token is falsy (the empty string), and
otherwise build the HTTP client state. -/
def clientInit (config : AAPConfig) : Except String AAPClientState :=
  if config.url = "" || config.token = "" then
    .error "AAP_URL and AAP_TOKEN must be configured"
  else
    .ok { config := config
          headers := [("Content-Type", "application/json"),
                      ("Authorization", "Bearer " ++ config.token)]
          base_url := config.url
          verify := config.verify_ssl
          timeout := config.timeout }

/-- Outcome of one HTTP attempt inside the retry loop, as observed by the
`try` body: a 2xx response whose decoded payload is `body`, a non-2xx
response (raised as `httpx.HTTPStatusError` by `raise_for_status`), or any
other exception (transport failure, decode failure, ...). -/
inductive AttemptOutcome (α : Type) where
  | success (body : α)
  | httpStatusError (status : Nat) (text : String)
  | transportError (msg : String)
deriving Repr

/-- `true` iff the attempt returned a 2xx response. -/
def AttemptOutcome.isSuccess {α : Type} : AttemptOutcome α → Bool
  | .success _ => true
  | _ => false

/-- What `_make_request` does overall: return decoded JSON, raise an
exception message, or fall off the end of the `for` loop (returning
Python's implicit `None`). -/
inductive ReqOutcome where
  | ok (v : Json)
  | raised (msg : String)
  | returnedNone
deriving Repr

/-- What `_make_text_request` does overall: return a string (either a
response text or the trailing `return ""`), or raise. -/
inductive TextOutcome where
  | ok (s : String)
  | raised (msg : String)
deriving Repr, DecidableEq

/-- A run of a retry loop: its result, the backoff sleeps it performed in
order, and how many HTTP attempts it issued. -/
structure ReqRun (α : Type) where
  outcome : α
  sleeps : List Nat
  attempts : Nat
deriving Repr

/-- The `for attempt in range(max_retries)` loop of `AAPClient._make_request`
at iteration `attempt = k`, with `fuel` iterations left to run (the caller
ties `fuel = mr - k`, so the loop body runs for `k, k+1, …, mr-1`): on
`HTTPStatusError` at the last attempt (`k = mr - 1`) raise
`"AAP API request failed: {status} - {text}"`, on any other exception at
the last attempt raise `"AAP API request failed: {msg}"`, otherwise sleep
`2 ** attempt` and continue; an exhausted loop falls through. -/
def makeRequestGo (mr : Nat) (att : Nat → AttemptOutcome Json) (k : Nat) :
    Nat → ReqRun ReqOutcome
  | 0 => ⟨.returnedNone, [], 0⟩
  | fuel + 1 =>
    match att k with
    | .success v => ⟨.ok v, [], 1⟩
    | .httpStatusError status text =>
      if k = mr - 1 then
        ⟨.raised ("AAP API request failed: " ++ toString status ++ " - " ++ text), [], 1⟩
      else
        let r := makeRequestGo mr att (k + 1) fuel
        ⟨r.outcome, 2 ^ k :: r.sleeps, r.attempts + 1⟩
    | .transportError msg =>
      if k = mr - 1 then
        ⟨.raised ("AAP API request failed: " ++ msg), [], 1⟩
      else
        let r := makeRequestGo mr att (k + 1) fuel
        ⟨r.outcome, 2 ^ k :: r.sleeps, r.attempts + 1⟩

/-- `AAPClient._make_request`: run the retry loop from attempt 0 with all
`max_retries` iterations; if the loop exhausts without returning or
raising (only possible when `max_retries = 0`), Python returns `None`. -/
def makeRequest (mr : Nat) (att : Nat → AttemptOutcome Json) : ReqRun ReqOutcome :=
  makeRequestGo mr att 0 mr

/-- The retry loop of `AAPClient._make_text_request`, from iteration `k`
on: identical to `_make_request`'s loop except that a success returns
`response.text` and the `HTTPStatusError` message reads
`"AAP API request failed: HTTP {status} - {text}"`. (The code's fallback
`" - Unable to read response text"` branch fires only when reading
`e.response.text` itself raises, which the oracle does not model.) -/
def makeTextRequestGo (mr : Nat) (att : Nat → AttemptOutcome String) (k : Nat) :
    Nat → ReqRun TextOutcome
  | 0 => ⟨.ok "", [], 0⟩
  | fuel + 1 =>
    match att k with
    | .success s => ⟨.ok s, [], 1⟩
    | .httpStatusError status text =>
      if k = mr - 1 then
        ⟨.raised ("AAP API request failed: HTTP " ++ toString status ++ " - " ++ text), [], 1⟩
      else
        let r := makeTextRequestGo mr att (k + 1) fuel
        ⟨r.outcome, 2 ^ k :: r.sleeps, r.attempts + 1⟩
    | .transportError msg =>
      if k = mr - 1 then
        ⟨.raised ("AAP API request failed: " ++ msg), [], 1⟩
      else
        let r := makeTextRequestGo mr att (k + 1) fuel
        ⟨r.outcome, 2 ^ k :: r.sleeps, r.attempts + 1⟩

/-- `AAPClient._make_text_request`: run the loop from attempt 0 with all
`max_retries` iterations; when the loop exhausts, the trailing
`return ""` yields the empty string. -/
def makeTextRequest (mr : Nat) (att : Nat → AttemptOutcome String) :
    ReqRun TextOutcome :=
  makeTextRequestGo mr att 0 mr

/-- `AAPClient.test_connection`: `GET me/` through `_make_request`,
returning `True` unless an exception propagates (a `None` return from an
exhausted loop is not an exception, so it also yields `True`). -/
def testConnection (mr : Nat) (att : Nat → AttemptOutcome Json) : Bool :=
  match (makeRequest mr att).outcome with
  | .raised _ => false
  | _ => true

/-- The body built by `AAPClient.launch_job_template`: starting from
`payload = {}` it adds each of `extra_vars`, `inventory`, `credentials`
only when the argument is truthy (non-`None` and non-empty / non-zero).
The method has no `limit` parameter. -/
def launchPayload (extra_vars : Option (List (String × Json)))
    (inventory : Option Int) (credentials : Option (List Int)) :
    List (String × Json) :=
  (match extra_vars with
   | some ev => if ev.isEmpty then [] else [("extra_vars", Json.obj ev)]
   | none => []) ++
  (match inventory with
   | some i => if i = 0 then [] else [("inventory", Json.int i)]
   | none => []) ++
  (match credentials with
   | some cs => if cs.isEmpty then [] else [("credentials", Json.arr (cs.map Json.int))]
   | none => [])

/-- `JobTemplate` (pydantic model, `aap_client.py`), fields in source
order. `extra_vars : Optional[Dict[str, Any]]` is an optional JSON
object. -/
structure JobTemplate where
  id : Int
  name : String
  description : String
  project : Int
  playbook : String
  inventory : Option Int := none
  credential : Option Int := none
  extra_vars : Option (List (String × Json)) := none
  survey_enabled : Bool := false
deriving Repr

/-- Python dict assignment `d[k] = v`: replace the value in place when the
key exists, append otherwise. -/
def setKey (d : List (String × Json)) (k : String) (v : Json) :
    List (String × Json) :=
  if (List.lookup k d).isSome then
    d.map (fun kv => if kv.1 = k then (k, v) else kv)
  else
    d ++ [(k, v)]

/-- A required `int` field of a pydantic model: present and an integer, or
a `ValidationError`. -/
def getIntField (d : List (String × Json)) (k : String) : Except String Int :=
  match List.lookup k d with
  | some (.int n) => .ok n
  | _ => .error ("validation error: " ++ k)

/-- A required `str` field of a pydantic model. -/
def getStrField (d : List (String × Json)) (k : String) : Except String String :=
  match List.lookup k d with
  | some (.str s) => .ok s
  | _ => .error ("validation error: " ++ k)

/-- An `Optional[int]` field: missing or `null` gives `None`; an integer
is kept; anything else is a `ValidationError`. -/
def getOptIntField (d : List (String × Json)) (k : String) :
    Except String (Option Int) :=
  match List.lookup k d with
  | none => .ok none
  | some .null => .ok none
  | some (.int n) => .ok (some n)
  | some _ => .error ("validation error: " ++ k)

/-- An `Optional[Dict[str, Any]]` field: missing or `null` gives `None`;
a JSON object is kept; anything else — in particular the upstream
empty-string `""` — is a `ValidationError` (pydantic rejects a `str`
where a dict is required). -/
def getOptDictField (d : List (String × Json)) (k : String) :
    Except String (Option (List (String × Json))) :=
  match List.lookup k d with
  | none => .ok none
  | some .null => .ok none
  | some (.obj kvs) => .ok (some kvs)
  | some _ => .error ("validation error: " ++ k)

/-- A `bool` field with a default: missing gives the default. -/
def getBoolFieldD (d : List (String × Json)) (k : String) (dflt : Bool) :
    Except String Bool :=
  match List.lookup k d with
  | none => .ok dflt
  | some (.bool b) => .ok b
  | some _ => .error ("validation error: " ++ k)

/-- `JobTemplate(**template_data)`: pydantic validation of one upstream
record (unknown keys are ignored, as pydantic does by default). -/
def parseJobTemplate (template_data : List (String × Json)) :
    Except String JobTemplate := do
  let id ← getIntField template_data "id"
  let name ← getStrField template_data "name"
  let description ← getStrField template_data "description"
  let project ← getIntField template_data "project"
  let playbook ← getStrField template_data "playbook"
  let inventory ← getOptIntField template_data "inventory"
  let credential ← getOptIntField template_data "credential"
  let extra_vars ← getOptDictField template_data "extra_vars"
  let survey_enabled ← getBoolFieldD template_data "survey_enabled" false
  pure { id := id, name := name, description := description,
         project := project, playbook := playbook, inventory := inventory,
         credential := credential, extra_vars := extra_vars,
         survey_enabled := survey_enabled }

/-- `true` exactly on the JSON value `""`. -/
def Json.isEmptyStr : Json → Bool
  | .str "" => true
  | _ => false

/-- The normalization step in `AAPClient.get_job_templates`:
`if "extra_vars" in template_data and template_data["extra_vars"] == "":
template_data["extra_vars"] = None`. -/
def normalizeExtraVars (template_data : List (String × Json)) :
    List (String × Json) :=
  match List.lookup "extra_vars" template_data with
  | some v =>
    if v.isEmptyStr then setKey template_data "extra_vars" .null
    else template_data
  | none => template_data

/-- Record construction in `AAPClient.get_job_templates`: each record of
the response's `results` list is normalized, then validated; a
`ValidationError` propagates out of the loop. -/
def getJobTemplatesRecords (results : List (List (String × Json))) :
    Except String (List JobTemplate) :=
  results.mapM (fun template_data => parseJobTemplate (normalizeExtraVars template_data))

/-- Record construction in `AAPClient.get_job_template` (fetch by id):
`JobTemplate(**response)` with no normalization step. -/
def getJobTemplateRecord (response : List (String × Json)) :
    Except String JobTemplate :=
  parseJobTemplate response

/-- Python `s or alt` for a `str` value: the empty string is falsy. -/
def pyOrStr (s alt : String) : String :=
  if s = "" then alt else s

/-- Python `x or alt` for an `Optional[str]` value: `None` and `""` are
falsy. -/
def pyOrOptStr (x : Option String) (alt : String) : String :=
  match x with
  | some s => if s = "" then alt else s
  | none => alt

/-- Python truthiness of an `Optional[int]` value: `None` and `0` are
falsy. -/
def pyTruthyOptInt : Option Int → Bool
  | some i => i != 0
  | none => false

/-- One numbered detail block of the `get_job_templates` tool
(`server.py`), for item number `i`: optional lines appear only when the
field is truthy. -/
def templateDetail (i : Nat) (t : JobTemplate) : String :=
  "**" ++ toString i ++ ". " ++ t.name ++ "** (ID: " ++ toString t.id ++ ")\n" ++
  "   📋 Description: " ++ pyOrStr t.description "No description provided" ++ "\n" ++
  "   📘 Playbook: " ++ t.playbook ++ "\n" ++
  "   📁 Project: " ++ toString t.project ++ "\n" ++
  (match t.inventory with
   | some v => if v = 0 then "" else "   🗂️  Inventory: " ++ toString v ++ "\n"
   | none => "") ++
  (match t.credential with
   | some v => if v = 0 then "" else "   🔑 Credential: " ++ toString v ++ "\n"
   | none => "") ++
  "   📝 Survey Enabled: " ++ (if t.survey_enabled then "Yes" else "No") ++ "\n"

/-- The `template_info` dict built for the JSON block of
`get_job_templates`: six always-present fields, then `inventory` and
`credential` only when truthy. -/
def templateInfo (t : JobTemplate) : List (String × Json) :=
  [("id", Json.int t.id), ("name", Json.str t.name),
   ("description", Json.str t.description), ("playbook", Json.str t.playbook),
   ("project", Json.int t.project),
   ("survey_enabled", Json.bool t.survey_enabled)] ++
  (match t.inventory with
   | some v => if v = 0 then [] else [("inventory", Json.int v)]
   | none => []) ++
  (match t.credential with
   | some v => if v = 0 then [] else [("credential", Json.int v)]
   | none => [])

/-- The `template_details` list: one block per template, numbered from 1. -/
def templateDetails (templates : List JobTemplate) : List String :=
  (templates.enumFrom 1).map (fun p => templateDetail p.1 p.2)

/-- The `template_list` of JSON objects mirroring the items. -/
def templateList (templates : List JobTemplate) : List Json :=
  templates.map (fun t => Json.obj (templateInfo t))

/-- The formatting done by the `get_job_templates` tool body after the
client call returns: the fixed empty-result sentence, or a count header
(plural 's' unless the count is 1), the joined detail blocks, a `---`
separator and the `json.dumps(template_list, indent=2)` block. -/
def formatJobTemplates (templates : List JobTemplate) : String :=
  if templates.isEmpty then
    "No job templates found in the specified project."
  else
    "Found " ++ toString templates.length ++ " job template" ++
      (if templates.length != 1 then "s" else "") ++ ":\n\n" ++
    String.intercalate "\n" (templateDetails templates) ++
    "\n\n---\n\nJSON Data:\n```json\n" ++
    dumps (Json.arr (templateList templates)) 0 ++
    "\n```"

/-- `Host` (pydantic model, `aap_client.py`). -/
structure Host where
  id : Int
  name : String
  description : Option String := none
  enabled : Bool := true
deriving Repr

/-- `Inventory` (pydantic model, `aap_client.py`). -/
structure Inventory where
  id : Int
  name : String
  description : Option String := none
  hosts : List Host := []
deriving Repr

/-- Python `str(x)` of an `Optional[str]`: `None` prints as `"None"`. -/
def pyStrOptStr : Option String → String
  | some s => s
  | none => "None"

/-- An `Optional[str]` as a JSON value: `None` serialises as `null`. -/
def optStrJson : Option String → Json
  | some s => Json.str s
  | none => Json.null

/-- The `host_detail` dict of `format_inventories`. -/
def hostDetail (h : Host) : List (String × Json) :=
  [("name", Json.str h.name), ("description", optStrJson h.description),
   ("enabled", Json.bool h.enabled)]

/-- One detail block of `format_inventories` (`aap_client.py`), item
number `i`. The description label's "emoji" is the file's literal
mojibake sequence U+00F0 U+0178 U+201C U+2039. -/
def inventoryDetail (i : Nat) (inv : Inventory) : String :=
  "**" ++ toString i ++ ". " ++ inv.name ++ "** (ID: " ++ toString inv.id ++ ")\n" ++
  "   ðŸ“‹ Description: " ++
    pyOrOptStr inv.description "No description provided" ++ "\n" ++
  String.join ((inv.hosts.enumFrom 1).map (fun p =>
    "   - Host " ++ toString p.1 ++ ": " ++ p.2.name ++ "\n" ++
    "              Description : " ++ pyStrOptStr p.2.description ++ "\n" ++
    "              Enabled     : " ++ (if p.2.enabled then "Yes" else "No") ++ "\n"))

/-- The `inventory_info` dict of `format_inventories`. -/
def inventoryInfo (inv : Inventory) : List (String × Json) :=
  [("id", Json.int inv.id), ("name", Json.str inv.name),
   ("description", optStrJson inv.description),
   ("hosts", Json.arr (inv.hosts.map (fun h => Json.obj (hostDetail h))))]

/-- `format_inventories` (`aap_client.py`): empty-result sentence, or a
count header (noun "inventory"/"inventories"), detail blocks, `---`
separator and JSON block. -/
def format_inventories (inventories : List Inventory) : String :=
  if inventories.isEmpty then
    "No inventories found in the specific organization."
  else
    "Found " ++ toString inventories.length ++ " inventor" ++
      (if inventories.length != 1 then "ies" else "y") ++ ":\n\n" ++
    String.intercalate "\n"
      ((inventories.enumFrom 1).map (fun p => inventoryDetail p.1 p.2)) ++
    "\n\n---\n\nJSON Data:\n```json\n" ++
    dumps (Json.arr (inventories.map (fun inv => Json.obj (inventoryInfo inv)))) 0 ++
    "\n```"

/-- The `try/except` boundary shared by every tool in `server.py`: a body
that raises is converted to the text `"Error: " ++ str(e)`; nothing
propagates. -/
def toolGuard (body : Except String String) : String :=
  match body with
  | .ok s => s
  | .error e => "Error: " ++ e

/-- The `get_job_templates` tool: construct a client (`init`), call
`client.get_job_templates` (`fetch`), format; all inside the guard. -/
def getJobTemplatesTool (init : Except String AAPClientState)
    (fetch : Except String (List JobTemplate)) : String :=
  toolGuard (do
    let _ ← init
    let templates ← fetch
    pure (formatJobTemplates templates))

/-- The `launch_job_template` tool: after constructing the client it calls
`client.launch_job_template(template_id=..., extra_vars=..., inventory=...,
credentials=..., limit=limit)`. `AAPClient.launch_job_template` accepts no
`limit` parameter, so on every call that reaches it CPython raises
`TypeError` (message as of CPython ≥ 3.10) before any request is issued,
and the guard renders it. -/
def launchJobTemplateTool (init : Except String AAPClientState) : String :=
  toolGuard (do
    let _ ← init
    Except.error
      "AAPClient.launch_job_template() got an unexpected keyword argument 'limit'")

/-- The `status_info` selection of the `get_job_status` tool:
`job_status.get(key)` defaults to `None`. -/
def statusInfo (job_status : List (String × Json)) : List (String × Json) :=
  ["id", "name", "status", "failed", "started", "finished", "elapsed",
   "job_template", "playbook"].map
    (fun k => (k, (List.lookup k job_status).getD Json.null))

/-- The `get_job_status` tool. -/
def getJobStatusTool (init : Except String AAPClientState)
    (fetch : Except String (List (String × Json))) : String :=
  toolGuard (do
    let _ ← init
    let job_status ← fetch
    pure ("Job Status:\n\n" ++ dumps (Json.obj (statusInfo job_status)) 0))

/-- The `get_job_output` tool. -/
def getJobOutputTool (init : Except String AAPClientState) (job_id : Int)
    (fetch : Except String String) : String :=
  toolGuard (do
    let _ ← init
    let job_output ← fetch
    pure ("Job Output (Job ID: " ++ toString job_id ++ "):\n\n```\n" ++
          job_output ++ "\n```"))

/-- The `test_aap_connection` tool: `test_connection` cannot raise, so
after a successful client construction the tool always reports the
boolean outcome together with config fields (`str(bool)` prints
`True`/`False` in Python). -/
def testAapConnectionTool (init : Except String AAPClientState)
    (att : Nat → AttemptOutcome Json) : String :=
  toolGuard (do
    let st ← init
    let connection_ok := testConnection st.config.max_retries att
    pure ("AAP Connection Test: " ++
          (if connection_ok then "✅ SUCCESS" else "❌ FAILED") ++ "\n\n" ++
          "URL: " ++ st.config.url ++ "\n" ++
          "Project ID: " ++ st.config.project_id ++ "\n" ++
          "SSL Verification: " ++ (if st.config.verify_ssl then "True" else "False")))

/-- The `get_host_inventories` tool. -/
def getHostInventoriesTool (init : Except String AAPClientState)
    (fetch : Except String (List Inventory)) : String :=
  toolGuard (do
    let _ ← init
    let inventories ← fetch
    pure (format_inventories inventories))

/-- The `get_organizations` tool: its body calls
`client.get_organizations()`, a method class `AAPClient` does not define,
so (in the counterfactual run where `server.py` imported at all) the body
raises `AttributeError` and the guard renders it. -/
def getOrganizationsTool (init : Except String AAPClientState) : String :=
  toolGuard (do
    let _ ← init
    Except.error "'AAPClient' object has no attribute 'get_organizations'")

/-- The `get_projects` tool: its body calls `client.get_projects()`, a
method class `AAPClient` does not define. -/
def getProjectsTool (init : Except String AAPClientState) : String :=
  toolGuard (do
    let _ ← init
    Except.error "'AAPClient' object has no attribute 'get_projects'")

/-- The top-level names module `aap_client` defines (its importable
surface, in source order). -/
def aapClientModuleNames : List String :=
  ["AAPConfig", "JobTemplate", "JobLaunch", "Host", "Inventory",
   "AAPClient", "format_inventories"]

/-- The names `server.py` imports from `aap_client` (lines 11–18). -/
def serverImportedNames : List String :=
  ["AAPClient", "JobTemplate", "JobLaunch", "format_inventories",
   "Organization", "Project"]

/-- The methods class `AAPClient` defines, in source order. -/
def aapClientMethodNames : List String :=
  ["__init__", "__aenter__", "__aexit__", "_make_request",
   "_make_text_request", "get_job_templates", "get_job_template",
   "launch_job_template", "get_job_status", "get_job_stdout",
   "test_connection", "get_inventories"]

/-- The eight tools `server.py` registers, each with its parameters in
declaration order; `true` marks a required parameter (no default),
`false` an optional one. -/
def serverTools : List (String × List (String × Bool)) :=
  [("get_job_templates", [("project_id", false)]),
   ("launch_job_template",
    [("template_id", true), ("extra_vars", false), ("inventory", false),
     ("credentials", false), ("limit", false)]),
   ("get_job_status", [("job_id", true)]),
   ("get_job_output", [("job_id", true)]),
   ("test_aap_connection", []),
   ("get_host_inventories", [("organization_id", false)]),
   ("get_organizations", []),
   ("get_projects", [("organization_id", false)])]

/-- The client method each tool body invokes. -/
def serverToolClientCalls : List (String × String) :=
  [("get_job_templates", "get_job_templates"),
   ("launch_job_template", "launch_job_template"),
   ("get_job_status", "get_job_status"),
   ("get_job_output", "get_job_stdout"),
   ("test_aap_connection", "test_connection"),
   ("get_host_inventories", "get_inventories"),
   ("get_organizations", "get_organizations"),
   ("get_projects", "get_projects")]

/-- The parameters of `AAPClient.launch_job_template` (besides `self`). -/
def clientLaunchParamNames : List String :=
  ["template_id", "extra_vars", "inventory", "credentials"]

/-- The keyword arguments the `launch_job_template` tool passes to
`client.launch_job_template`. -/
def serverLaunchCallKeywords : List String :=
  ["template_id", "extra_vars", "inventory", "credentials", "limit"]

/-- An upstream job-template record whose `extra_vars` field is the empty
string, as the AAP API sends for a template with no variables. -/
def emptyVarsTemplateData : List (String × Json) :=
  [("id", Json.int 1), ("name", Json.str "Deploy"),
   ("description", Json.str "d"), ("project", Json.int 5),
   ("playbook", Json.str "deploy.yml"), ("extra_vars", Json.str "")]

/-- A template whose `inventory` field is present but `0`: non-null yet
Python-falsy. -/
def invZeroTemplate : JobTemplate :=
  { id := 1, name := "A", description := "d", project := 5,
    playbook := "a.yml", inventory := some 0 }

/-- A second template for three-element formatting examples. -/
def plainTemplateB : JobTemplate :=
  { id := 2, name := "B", description := "d", project := 5, playbook := "b.yml" }

/-- A third template for three-element formatting examples. -/
def plainTemplateC : JobTemplate :=
  { id := 3, name := "C", description := "d", project := 5, playbook := "c.yml" }

/-- When every attempt in range fails (no attempt is a 2xx success), the
`_make_request` loop entered at attempt `k` with `fuel = mr - k > 0`
iterations left ends by raising, issues exactly `fuel` attempts, and
sleeps `2^k, …, 2^(mr-2)` between consecutive attempts. -/
theorem makeRequestGo_all_fail (mr : Nat) (att : Nat → AttemptOutcome Json)
    (hfail : ∀ j, j < mr → (att j).isSuccess = false) :
    ∀ fuel k, k + fuel = mr → 0 < fuel →
      ∃ msg, makeRequestGo mr att k fuel =
        ⟨.raised msg, (List.range' k (fuel - 1)).map (fun j => 2 ^ j), fuel⟩ := by
  intro fuel
  induction fuel with
  | zero =>
    intro k hk h0
    omega
  | succ f ih =>
    intro k hk _
    have hklt : k < mr := by omega
    rw [makeRequestGo]
    cases hatt : att k with
    | success v =>
      have hs := hfail k hklt
      rw [hatt] at hs
      simp [AttemptOutcome.isSuccess] at hs
    | httpStatusError status text =>
      dsimp only
      by_cases hlast : k = mr - 1
      · have hf : f = 0 := by omega
        subst hf
        rw [if_pos hlast]
        exact ⟨_, rfl⟩
      · have hf : 0 < f := by omega
        obtain ⟨msg, hmsg⟩ := ih (k + 1) (by omega) hf
        rw [if_neg hlast]
        refine ⟨msg, ?_⟩
        simp only [hmsg]
        rw [show f + 1 - 1 = (f - 1) + 1 by omega, List.range'_succ, List.map_cons]
    | transportError m =>
      dsimp only
      by_cases hlast : k = mr - 1
      · have hf : f = 0 := by omega
        subst hf
        rw [if_pos hlast]
        exact ⟨_, rfl⟩
      · have hf : 0 < f := by omega
        obtain ⟨msg, hmsg⟩ := ih (k + 1) (by omega) hf
        rw [if_neg hlast]
        refine ⟨msg, ?_⟩
        simp only [hmsg]
        rw [show f + 1 - 1 = (f - 1) + 1 by omega, List.range'_succ, List.map_cons]

/-- C1. The dispatcher does register the eight operations with the
declared shapes, but the claim's resolution part fails on the code:
`server.py` imports `Organization` and `Project` from `aap_client`, which
exports neither, and the `get_organizations` / `get_projects` tools call
client methods that class `AAPClient` does not define. -/
theorem C1_missing_client_symbols :
    serverTools.map Prod.fst =
      ["get_job_templates", "launch_job_template", "get_job_status",
       "get_job_output", "test_aap_connection", "get_host_inventories",
       "get_organizations", "get_projects"] ∧
    (∃ n ∈ serverImportedNames, n ∉ aapClientModuleNames) ∧
    "Organization" ∈ serverImportedNames ∧
    "Organization" ∉ aapClientModuleNames ∧
    "Project" ∈ serverImportedNames ∧
    "Project" ∉ aapClientModuleNames ∧
    "get_organizations" ∈ serverToolClientCalls.map Prod.snd ∧
    "get_organizations" ∉ aapClientMethodNames ∧
    "get_projects" ∈ serverToolClientCalls.map Prod.snd ∧
    "get_projects" ∉ aapClientMethodNames := by
  refine ⟨rfl, ⟨"Organization", by decide, by decide⟩, ?_⟩
  decide

/-- C2. A launch body never contains a `limit` key: with only a template
id the body is empty, with all client-accepted optional arguments
supplied the keys are exactly `extra_vars`, `inventory`, `credentials` —
and the server's launch tool passes a `limit` keyword that
`AAPClient.launch_job_template` does not accept. -/
theorem C2_launch_body_limit_missing :
    launchPayload none none none = [] ∧
    (launchPayload (some [("app", Json.str "web")]) (some 7)
        (some [1, 2])).map Prod.fst = ["extra_vars", "inventory", "credentials"] ∧
    "limit" ∈ serverLaunchCallKeywords ∧
    "limit" ∉ clientLaunchParamNames := by
  refine ⟨rfl, rfl, ?_, ?_⟩ <;> decide

/-- C3. On a record whose `extra_vars` is the empty string, the
list-templates path normalizes it to absent, but the fetch-by-id path
passes the string straight to validation, which rejects it: no record
with an absent variables field is constructed there. -/
theorem C3_by_id_fetch_skips_normalization :
    List.lookup "extra_vars" emptyVarsTemplateData = some (Json.str "") ∧
    getJobTemplatesRecords [emptyVarsTemplateData] =
      .ok [{ id := 1, name := "Deploy", description := "d", project := 5,
             playbook := "deploy.yml", inventory := none, credential := none,
             extra_vars := none, survey_enabled := false }] ∧
    getJobTemplateRecord emptyVarsTemplateData =
      .error "validation error: extra_vars" :=
  ⟨rfl, rfl, rfl⟩

/-- C4. With `max_retries = 0` the request loops never run:
`_make_request` falls through and returns Python's `None` and
`_make_text_request` hits its trailing `return ""` — both contradict the
code's own "should never be reached" comment and the claim that a failed
request always ends in a raised error. With `max_retries = 1` the claimed
error (status code and body) is raised. -/
theorem C4_zero_retries_empty_success :
    (makeRequest 0 (fun _ => .transportError "connection refused")).outcome =
      ReqOutcome.returnedNone ∧
    (makeTextRequest 0 (fun _ => .transportError "connection refused")).outcome =
      TextOutcome.ok "" ∧
    (makeRequest 1 (fun _ => .httpStatusError 503 "unavailable")).outcome =
      ReqOutcome.raised "AAP API request failed: 503 - unavailable" ∧
    (makeTextRequest 1 (fun _ => .httpStatusError 503 "unavailable")).outcome =
      TextOutcome.raised "AAP API request failed: HTTP 503 - unavailable" :=
  ⟨rfl, rfl, rfl, rfl⟩

/-- C5. When `max_retries ≥ 1` and every attempt fails, `_make_request`
issues exactly `max_retries` attempts, raises, and sleeps exactly
`2^0, 2^1, …, 2^(max_retries - 2)` between consecutive attempts — no
jitter, no cap; with `max_retries = 1` there is one attempt and no
sleep. -/
theorem C5_retry_count_and_backoff (mr : Nat) (att : Nat → AttemptOutcome Json)
    (hmr : 1 ≤ mr) (hfail : ∀ j, j < mr → (att j).isSuccess = false) :
    ∃ msg, (makeRequest mr att).outcome = .raised msg ∧
      (makeRequest mr att).attempts = mr ∧
      (makeRequest mr att).sleeps = (List.range (mr - 1)).map (fun j => 2 ^ j) ∧
      (mr = 1 → (makeRequest mr att).sleeps = []) := by
  obtain ⟨msg, hmsg⟩ :=
    makeRequestGo_all_fail mr att hfail mr 0 (by omega) (by omega)
  unfold makeRequest
  rw [hmsg]
  refine ⟨msg, rfl, rfl, ?_, ?_⟩
  · rw [List.range_eq_range' (mr - 1)]
  · intro h1
    subst h1
    rfl

/-- Witness for C5: three all-failing attempts give three attempts and
sleeps 1, 2; a single allowed attempt gives one attempt and no sleep. -/
theorem C5_witness :
    ((makeRequest 3 (fun _ => .httpStatusError 500 "err")).attempts = 3 ∧
     (makeRequest 3 (fun _ => .httpStatusError 500 "err")).sleeps = [1, 2]) ∧
    ((makeRequest 1 (fun _ => .transportError "t")).attempts = 1 ∧
     (makeRequest 1 (fun _ => .transportError "t")).sleeps = []) := by
  obtain ⟨m3, _, hatt3, hsl3, _⟩ :=
    C5_retry_count_and_backoff 3 (fun _ => .httpStatusError 500 "err")
      (by omega) (fun j hj => rfl)
  obtain ⟨m1, _, hatt1, _, hone⟩ :=
    C5_retry_count_and_backoff 1 (fun _ => .transportError "t")
      (by omega) (fun j hj => rfl)
  refine ⟨⟨hatt3, ?_⟩, hatt1, hone rfl⟩
  rw [hsl3]
  rfl

/-- C6. Every tool operation is a single `try/except` returning text: an
exception raised by client construction or by the client-method call is
rendered as `"Error: " ++ str(e)`, and a tool never yields anything but a
string. For `launch_job_template`, `get_organizations` and `get_projects`
even a successful construction ends in such an error text, since their
client calls themselves raise. -/
theorem C6_tools_convert_exceptions (e : String) (st : AAPClientState)
    (fetchT : Except String (List JobTemplate))
    (fetchS : Except String (List (String × Json)))
    (fetchO : Except String String) (fetchI : Except String (List Inventory))
    (att : Nat → AttemptOutcome Json) (job_id : Int) :
    getJobTemplatesTool (.error e) fetchT = "Error: " ++ e ∧
    getJobTemplatesTool (.ok st) (.error e) = "Error: " ++ e ∧
    launchJobTemplateTool (.error e) = "Error: " ++ e ∧
    launchJobTemplateTool (.ok st) =
      "Error: AAPClient.launch_job_template() got an unexpected keyword argument 'limit'" ∧
    getJobStatusTool (.error e) fetchS = "Error: " ++ e ∧
    getJobStatusTool (.ok st) (.error e) = "Error: " ++ e ∧
    getJobOutputTool (.error e) job_id fetchO = "Error: " ++ e ∧
    getJobOutputTool (.ok st) job_id (.error e) = "Error: " ++ e ∧
    testAapConnectionTool (.error e) att = "Error: " ++ e ∧
    getHostInventoriesTool (.error e) fetchI = "Error: " ++ e ∧
    getHostInventoriesTool (.ok st) (.error e) = "Error: " ++ e ∧
    getOrganizationsTool (.error e) = "Error: " ++ e ∧
    getOrganizationsTool (.ok st) =
      "Error: 'AAPClient' object has no attribute 'get_organizations'" ∧
    getProjectsTool (.error e) = "Error: " ++ e ∧
    getProjectsTool (.ok st) =
      "Error: 'AAPClient' object has no attribute 'get_projects'" :=
  ⟨rfl, rfl, rfl, rfl, rfl, rfl, rfl, rfl, rfl, rfl, rfl, rfl, rfl, rfl, rfl⟩

/-- Witness for C6 at concrete inputs. -/
theorem C6_witness :
    getJobTemplatesTool (.error "boom") (.ok []) = "Error: boom" :=
  (C6_tools_convert_exceptions "boom"
    ⟨⟨"u", "t", "p", true, 30, 3⟩, [], "u", true, 30⟩
    (.ok []) (.ok []) (.ok "") (.ok []) (fun _ => .success Json.null) 0).1

/-- C7. Client construction fails with the configuration `ValueError`
whenever the URL or the token is empty, and succeeds on any other
configuration, storing the supplied configuration unchanged. -/
theorem C7_config_validation (cfg : AAPConfig) :
    (cfg.url = "" ∨ cfg.token = "" →
      clientInit cfg = .error "AAP_URL and AAP_TOKEN must be configured") ∧
    (cfg.url ≠ "" → cfg.token ≠ "" →
      ∃ st, clientInit cfg = .ok st ∧ st.config = cfg) := by
  constructor
  · intro h
    unfold clientInit
    rcases h with h | h <;> simp [h]
  · intro h1 h2
    unfold clientInit
    rw [if_neg (by simp [h1, h2])]
    exact ⟨_, rfl, rfl⟩

/-- Witness for C7: an empty URL fails, a complete configuration succeeds
and stores exactly the supplied fields. -/
theorem C7_witness :
    clientInit { url := "", token := "tok", project_id := "1" } =
      .error "AAP_URL and AAP_TOKEN must be configured" ∧
    ∃ st, clientInit { url := "https://aap.example.com", token := "tok",
                       project_id := "1" } = .ok st ∧
      st.config = { url := "https://aap.example.com", token := "tok",
                    project_id := "1" } :=
  ⟨(C7_config_validation _).1 (Or.inl rfl),
   (C7_config_validation _).2 (by decide) (by decide)⟩

/-- C8. The connectivity test returns `false` exactly when the underlying
`GET me/` raises, whatever the cause: a transport timeout and an HTTP 401
rejection both yield `false`, and no failure detail survives. -/
theorem C8_test_connection_boolean (mr : Nat) (att : Nat → AttemptOutcome Json) :
    (testConnection mr att = false ↔
      ∃ e, (makeRequest mr att).outcome = .raised e) ∧
    testConnection 1 (fun _ => .transportError "Connection timed out") = false ∧
    testConnection 1 (fun _ => .httpStatusError 401 "Unauthorized") = false ∧
    testConnection 1 (fun _ => .success (Json.obj [])) = true := by
  refine ⟨?_, rfl, rfl, rfl⟩
  unfold testConnection
  cases h : (makeRequest mr att).outcome <;> simp [h]

/-- Witness for C8: a run whose single attempt times out tests `false`. -/
theorem C8_witness :
    testConnection 2 (fun _ => .transportError "timeout") = false :=
  (C8_test_connection_boolean 2 (fun _ => .transportError "timeout")).1.mpr
    ⟨"AAP API request failed: timeout", rfl⟩

/-- C9 counterexample: in a three-template formatting run whose first
template has `inventory = 0` — present and non-null, but Python-falsy —
the first element of the JSON array omits the `inventory` key, refuting
"plus any non-null optional field". -/
theorem C9_counterexample :
    invZeroTemplate.inventory = some 0 ∧
    invZeroTemplate.inventory ≠ none ∧
    (templateList [invZeroTemplate, plainTemplateB, plainTemplateC]).length = 3 ∧
    (templateList [invZeroTemplate, plainTemplateB, plainTemplateC]).head? =
      some (Json.obj (templateInfo invZeroTemplate)) ∧
    (templateInfo invZeroTemplate).map Prod.fst =
      ["id", "name", "description", "playbook", "project", "survey_enabled"] := by
  refine ⟨rfl, by decide, rfl, rfl, rfl⟩

/-- C9 (amended). Formatting zero templates yields the fixed sentence;
one yields the singular header `Found 1 job template:`; three yield the
plural header `Found 3 job templates:`, three numbered detail blocks, a
literal `---` separator and a JSON array of length 3 whose first element
carries the six always-present fields plus each optional field that is
truthy (non-null and non-zero). -/
theorem C9_formatting_shapes :
    formatJobTemplates [] = "No job templates found in the specified project." ∧
    (∀ t : JobTemplate, ∃ rest,
      formatJobTemplates [t] = "Found 1 job template:" ++ rest) ∧
    (∀ t1 t2 t3 : JobTemplate,
      (∃ rest, formatJobTemplates [t1, t2, t3] =
        "Found 3 job templates:" ++ rest) ∧
      (templateDetails [t1, t2, t3]).length = 3 ∧
      (∃ pre post, formatJobTemplates [t1, t2, t3] =
        pre ++ "\n\n---\n\n" ++ post) ∧
      (templateList [t1, t2, t3]).length = 3 ∧
      (templateList [t1, t2, t3]).head? = some (Json.obj (templateInfo t1)) ∧
      (templateInfo t1).map Prod.fst =
        ["id", "name", "description", "playbook", "project", "survey_enabled"] ++
        (if pyTruthyOptInt t1.inventory then ["inventory"] else []) ++
        (if pyTruthyOptInt t1.credential then ["credential"] else [])) := by
  refine ⟨rfl, ?_, ?_⟩
  · intro t
    refine ⟨"\n\n" ++ (String.intercalate "\n" (templateDetails [t]) ++
      ("\n\n---\n\nJSON Data:\n```json\n" ++
       (dumps (Json.arr (templateList [t])) 0 ++ "\n```"))), ?_⟩
    show "Found " ++ toString (1 : Nat) ++ " job template" ++ "" ++ ":\n\n" ++
        String.intercalate "\n" (templateDetails [t]) ++
        "\n\n---\n\nJSON Data:\n```json\n" ++
        dumps (Json.arr (templateList [t])) 0 ++ "\n```" = _
    rw [show "Found " ++ toString (1 : Nat) ++ " job template" ++ "" ++ ":\n\n" =
          "Found 1 job template:" ++ "\n\n" from rfl]
    rw [String.append_assoc, String.append_assoc, String.append_assoc,
        String.append_assoc]
  · intro t1 t2 t3
    refine ⟨?_, rfl, ?_, rfl, rfl, ?_⟩
    · refine ⟨"\n\n" ++ (String.intercalate "\n" (templateDetails [t1, t2, t3]) ++
        ("\n\n---\n\nJSON Data:\n```json\n" ++
         (dumps (Json.arr (templateList [t1, t2, t3])) 0 ++ "\n```"))), ?_⟩
      show "Found " ++ toString (3 : Nat) ++ " job template" ++ "s" ++ ":\n\n" ++
          String.intercalate "\n" (templateDetails [t1, t2, t3]) ++
          "\n\n---\n\nJSON Data:\n```json\n" ++
          dumps (Json.arr (templateList [t1, t2, t3])) 0 ++ "\n```" = _
      rw [show "Found " ++ toString (3 : Nat) ++ " job template" ++ "s" ++ ":\n\n" =
            "Found 3 job templates:" ++ "\n\n" from rfl]
      rw [String.append_assoc, String.append_assoc, String.append_assoc,
          String.append_assoc]
    · refine ⟨"Found " ++ toString (3 : Nat) ++ " job template" ++ "s" ++ ":\n\n" ++
        String.intercalate "\n" (templateDetails [t1, t2, t3]),
        "JSON Data:\n```json\n" ++
          (dumps (Json.arr (templateList [t1, t2, t3])) 0 ++ "\n```"), ?_⟩
      show "Found " ++ toString (3 : Nat) ++ " job template" ++ "s" ++ ":\n\n" ++
          String.intercalate "\n" (templateDetails [t1, t2, t3]) ++
          "\n\n---\n\nJSON Data:\n```json\n" ++
          dumps (Json.arr (templateList [t1, t2, t3])) 0 ++ "\n```" = _
      rw [show ("\n\n---\n\nJSON Data:\n```json\n" : String) =
            "\n\n---\n\n" ++ "JSON Data:\n```json\n" from rfl]
      simp only [String.append_assoc]
    · cases hinv : t1.inventory with
      | none =>
        cases hcred : t1.credential with
        | none => simp [templateInfo, pyTruthyOptInt, hinv, hcred]
        | some c =>
          by_cases hc : c = 0 <;>
            simp [templateInfo, pyTruthyOptInt, hinv, hcred, hc]
      | some v =>
        cases hcred : t1.credential with
        | none =>
          by_cases hv : v = 0 <;>
            simp [templateInfo, pyTruthyOptInt, hinv, hcred, hv]
        | some c =>
          by_cases hv : v = 0 <;> by_cases hc : c = 0 <;>
            simp [templateInfo, pyTruthyOptInt, hinv, hcred, hv, hc]

/-- Witness for C9 at a concrete single template. -/
theorem C9_witness :
    ∃ rest, formatJobTemplates
      [{ id := 7, name := "W", description := "w", project := 9,
         playbook := "w.yml" }] = "Found 1 job template:" ++ rest :=
  C9_formatting_shapes.2.1 _

/-- C10. A supplied-but-falsy optional launch argument — empty
`extra_vars` map, inventory `0`, empty credential list — produces the
same body as an omitted one: the key is absent either way. -/
theorem C10_falsy_args_indistinguishable :
    (∀ inv cr, launchPayload (some []) inv cr = launchPayload none inv cr) ∧
    (∀ ev cr, launchPayload ev (some 0) cr = launchPayload ev none cr) ∧
    (∀ ev inv, launchPayload ev inv (some []) = launchPayload ev inv none) ∧
    launchPayload (some []) (some 0) (some []) = [] :=
  ⟨fun _ _ => rfl, fun _ _ => rfl, fun _ _ => rfl, rfl⟩

/-- Witness for C10: an empty extra-vars map leaves the body identical to
an omitted one. -/
theorem C10_witness :
    launchPayload (some []) (some 7) none = launchPayload none (some 7) none :=
  C10_falsy_args_indistinguishable.1 (some 7) none

end AAP
